import Mathlib

/-!
Verification of `hokusai/commands/stack.py` (repository sweir27/hokusai).

The file `stack.py` defines four CLI operations over a named context:
`stack_create`, `stack_update`, `stack_delete` and `stack_status`.  We embed
them shallowly: every externally visible action (printing, invoking the
orchestration tool via `shout(kctl.command(...))`, creating or destroying the
project secret, querying resource state) is recorded as an `Effect` in a
trace, and each operation returns the trace together with its Python return
value (`some (-1)` for the explicit `return -1`, `none` for falling off the
end of the function body).

The helper modules `hokusai.common` (`shout`), `hokusai.kubectl` (`Kubectl`),
`hokusai.secret` (`Secret`), `hokusai.deployment` (`Deployment`),
`hokusai.service` (`Service`) and `hokusai.config` (`config`) are not part of
the given sources; they are modelled as opaque effects and input data, as
described on each definition.
-/

/-- Model of `os.path.join(a, b)` for two path components as used at
`stack.py` line 17/32/43: if `b` is absolute it wins; otherwise a `/`
separator is inserted unless `a` is empty or already ends in `/`. -/
def osPathJoin (a b : String) : String :=
  if b.startsWith "/" then b
  else if a = "" ∨ a.endsWith "/" then a ++ b
  else a ++ "/" ++ b

/-- A YAML-like value, the shape of the JSON/YAML data the orchestration API
returns and that `stack_status` re-serializes. -/
inductive Yaml where
  | s (v : String)
  | n (v : Int)
  | b (v : Bool)
  | null
  | list (vs : List Yaml)
  | map (kvs : List (String × Yaml))

/-- Association lookup on the key-value list of a YAML mapping; models both
the Python `'k' in d` membership test and the `d['k']` access. -/
def assoc : List (String × Yaml) → String → Option Yaml
  | [], _ => none
  | (k, v) :: rest, key => if k = key then some v else assoc rest key

/-- Lookup of a key in a YAML value (none on non-mappings). -/
def Yaml.lookup : Yaml → String → Option Yaml
  | .map kvs, key => assoc kvs key
  | _, _ => none

/-- The keys of a YAML mapping, in order (used to talk about which fields a
record of the status report carries). -/
def Yaml.keys : Yaml → List String
  | .map kvs => kvs.map Prod.fst
  | _ => []

/-- One externally visible action of a stack command.

Modelled from the spec: the modules `hokusai.common`, `hokusai.kubectl`,
`hokusai.secret`, `hokusai.deployment` and `hokusai.service` are not among
the given sources, so their operations are recorded as opaque effects:
`shout(Kubectl(context).command(s))` becomes `kubectl context s` (one shell
invocation of the external cluster-management tool with verb string `s`),
`Secret(context).create()` / `.destroy()` become `secretCreate` /
`secretDestroy` carrying the secret's name `<project name>-secrets` (the name
stated by the adjacent `print_green` messages in `stack.py`), and reading
`Deployment(context).cache` / `Service(context).cache` becomes the read-only
`resourceQuery` effect, per the spec's description of the status query as
read-only. -/
inductive Effect where
  | printRed (msg : String)
  | printGreen (msg : String)
  | printLine (msg : String)
  | printDump (data : List Yaml)
  | kubectl (context : String) (cmd : String)
  | secretCreate (name : String)
  | secretDestroy (name : String)
  | resourceQuery (context : String) (kind : String)

/-- The ambient state a stack command observes: the current working directory
(`os.getcwd()`), which paths name existing regular files (`os.path.isfile`),
and `config.project_name` from the (absent) `hokusai.config` module. -/
structure Env where
  cwd : String
  isfile : String → Bool
  project_name : String

/-- `stack.py` line 17: `os.path.join(os.getcwd(), "hokusai/%s.yml" % context)`. -/
def create_kubernetes_yml (env : Env) (context : String) : String :=
  osPathJoin env.cwd ("hokusai/" ++ context ++ ".yml")

/-- `stack.py` line 32: `os.path.join(os.getcwd(), "hokusai/%s.yml" % context)`. -/
def update_kubernetes_yml (env : Env) (context : String) : String :=
  osPathJoin env.cwd ("hokusai/" ++ context ++ ".yml")

/-- `stack.py` line 43: `os.path.join(os.getcwd(), "hokusai/%s.yml" % context)`. -/
def delete_kubernetes_yml (env : Env) (context : String) : String :=
  osPathJoin env.cwd ("hokusai/" ++ context ++ ".yml")

/-- `stack_create` (`stack.py` lines 15-28): trace of effects and Python
return value. -/
def stack_create (env : Env) (context : String) : List Effect × Option Int :=
  let kubernetes_yml := create_kubernetes_yml env context
  if !env.isfile kubernetes_yml then
    ([.printRed ("Yaml file " ++ kubernetes_yml ++ " does not exist for given context.")],
     some (-1))
  else
    ([.secretCreate (env.project_name ++ "-secrets"),
      .printGreen ("Created secret " ++ env.project_name ++ "-secrets"),
      .kubectl context ("apply -f " ++ kubernetes_yml),
      .printGreen ("Created stack " ++ context)],
     none)

/-- `stack_update` (`stack.py` lines 30-39). -/
def stack_update (env : Env) (context : String) : List Effect × Option Int :=
  let kubernetes_yml := update_kubernetes_yml env context
  if !env.isfile kubernetes_yml then
    ([.printRed ("Yaml file " ++ kubernetes_yml ++ " does not exist for given context.")],
     some (-1))
  else
    ([.kubectl context ("apply -f " ++ kubernetes_yml),
      .printGreen ("Updated stack " ++ context)],
     none)

/-- `stack_delete` (`stack.py` lines 41-54). -/
def stack_delete (env : Env) (context : String) : List Effect × Option Int :=
  let kubernetes_yml := delete_kubernetes_yml env context
  if !env.isfile kubernetes_yml then
    ([.printRed ("Yaml file " ++ kubernetes_yml ++ " does not exist for given context.")],
     some (-1))
  else
    ([.secretDestroy (env.project_name ++ "-secrets"),
      .printGreen ("Deleted secret " ++ env.project_name ++ "-secrets"),
      .kubectl context ("delete -f " ++ kubernetes_yml),
      .printGreen ("Deleted stack " ++ context)],
     none)

/-- One item of `Deployment(context).cache`: the fields `stack_status` reads
(`item['metadata']['name']`, `item['spec']['replicas']`) plus the full
`item['status']` mapping as a key-value list. -/
structure DeploymentItem where
  metadata_name : Yaml
  spec_replicas : Yaml
  status : List (String × Yaml)

/-- One item of `Service(context).cache`: the fields `stack_status` reads. -/
structure ServiceItem where
  selector_app : Yaml
  clusterIP : Yaml
  ports : Yaml
  status : Yaml

/-- The record `stack_status` builds for one deployment item
(`stack.py` lines 61-67): an ordered mapping of exactly five fields. -/
def deploymentRecord (current_tag : Yaml) (item : DeploymentItem) : Yaml :=
  .map [("name", item.metadata_name),
        ("desiredReplicas", item.spec_replicas),
        ("availableReplicas",
          match assoc item.status "availableReplicas" with
          | some v => v
          | none => .n 0),
        ("unavailableReplicas",
          match assoc item.status "unavailableReplicas" with
          | some v => v
          | none => .n 0),
        ("tag", current_tag)]

/-- The record `stack_status` builds for one service item
(`stack.py` lines 72-77): an ordered mapping of exactly four fields. -/
def serviceRecord (item : ServiceItem) : Yaml :=
  .map [("target", item.selector_app),
        ("clusterIP", item.clusterIP),
        ("ports", item.ports),
        ("status", item.status)]

/-- `deployment_data` (`stack.py` lines 59-67): one record per cached
deployment item, in input order. -/
def deployment_data (current_tag : Yaml) (items : List DeploymentItem) : List Yaml :=
  items.map (deploymentRecord current_tag)

/-- `service_data` (`stack.py` lines 70-77): one record per cached service
item, in input order. -/
def service_data (items : List ServiceItem) : List Yaml :=
  items.map serviceRecord

/-- The data `stack_status` reads back from the orchestration API: the cached
deployment and service items and `deployment.current_tag`.

Modelled from the spec: `hokusai.deployment` and `hokusai.service` are not
among the given sources; per the spec the status query only reads resource
state already structured by the external orchestration API, so the caches and
the deployment's current tag are taken as input data. -/
structure StatusInput where
  current_tag : Yaml
  deployments : List DeploymentItem
  services : List ServiceItem

/-- `stack_status` (`stack.py` lines 56-87): the trace of effects, reads
first, then the printed report. -/
def stack_status (context : String) (inp : StatusInput) : List Effect :=
  [.resourceQuery context "deployments",
   .resourceQuery context "services",
   .printLine "",
   .printGreen ("Stack " ++ context ++ " status"),
   .printLine "",
   .printGreen "Deployments",
   .printGreen "-----------------------------------------------------------",
   .printDump (deployment_data inp.current_tag inp.deployments),
   .printGreen "Services",
   .printGreen "-----------------------------------------------------------",
   .printDump (service_data inp.services)]

/-- Is this effect an invocation of the external orchestration tool? -/
def Effect.isKubectl : Effect → Bool
  | .kubectl _ _ => true
  | _ => false

/-- Is this effect a secret creation or destruction? -/
def Effect.isSecretOp : Effect → Bool
  | .secretCreate _ => true
  | .secretDestroy _ => true
  | _ => false

/-- Is this effect a mutation of cluster state (orchestration-tool invocation
or secret creation/destruction)? -/
def Effect.isMutating : Effect → Bool
  | .kubectl _ _ => true
  | .secretCreate _ => true
  | .secretDestroy _ => true
  | _ => false

/-- The verb strings of the orchestration-tool invocations in a trace. -/
def kubectlCmds (trace : List Effect) : List String :=
  trace.filterMap fun e =>
    match e with
    | .kubectl _ cmd => some cmd
    | _ => none

/-! ## Concrete environments used by the witnesses -/

/-- An environment in which no file exists. -/
def envNoFile : Env :=
  { cwd := "/app", isfile := fun _ => false, project_name := "demo" }

/-- An environment in which every path names an existing file. -/
def envAllFiles : Env :=
  { cwd := "/app", isfile := fun _ => true, project_name := "demo" }

/-! ## Claims -/

/-- C1: for every context whose manifest file does not exist, each of
`stack_create`, `stack_update`, `stack_delete` prints a user-visible error
message, returns -1, and performs no orchestration-tool invocation and no
secret creation or destruction: the whole trace is the single error print. -/
theorem stack_mutations_fail_fast_on_missing_manifest (env : Env) (context : String)
    (h : env.isfile (create_kubernetes_yml env context) = false) :
    stack_create env context =
      ([Effect.printRed ("Yaml file " ++ create_kubernetes_yml env context ++
          " does not exist for given context.")], some (-1)) ∧
    stack_update env context =
      ([Effect.printRed ("Yaml file " ++ update_kubernetes_yml env context ++
          " does not exist for given context.")], some (-1)) ∧
    stack_delete env context =
      ([Effect.printRed ("Yaml file " ++ delete_kubernetes_yml env context ++
          " does not exist for given context.")], some (-1)) := by
  simp only [create_kubernetes_yml] at h
  refine ⟨?_, ?_, ?_⟩ <;>
    simp [stack_create, stack_update, stack_delete, create_kubernetes_yml,
      update_kubernetes_yml, delete_kubernetes_yml, h]

/-- Witness for C1 at the concrete environment `envNoFile` and context
`"staging"`. -/
theorem stack_mutations_fail_fast_on_missing_manifest_witness :
    stack_create envNoFile "staging" =
      ([Effect.printRed ("Yaml file " ++ create_kubernetes_yml envNoFile "staging" ++
          " does not exist for given context.")], some (-1)) ∧
    stack_update envNoFile "staging" =
      ([Effect.printRed ("Yaml file " ++ update_kubernetes_yml envNoFile "staging" ++
          " does not exist for given context.")], some (-1)) ∧
    stack_delete envNoFile "staging" =
      ([Effect.printRed ("Yaml file " ++ delete_kubernetes_yml envNoFile "staging" ++
          " does not exist for given context.")], some (-1)) :=
  stack_mutations_fail_fast_on_missing_manifest envNoFile "staging" rfl

/-- C2: for every context whose manifest file exists, each mutating operation
performs exactly one orchestration-tool invocation, whose verb string is the
CLI verb applied to the manifest-file path and nothing else. -/
theorem stack_mutations_single_kubectl_invocation (env : Env) (context : String)
    (h : env.isfile (create_kubernetes_yml env context) = true) :
    (stack_create env context).1.filter Effect.isKubectl =
      [Effect.kubectl context ("apply -f " ++ create_kubernetes_yml env context)] ∧
    (stack_update env context).1.filter Effect.isKubectl =
      [Effect.kubectl context ("apply -f " ++ update_kubernetes_yml env context)] ∧
    (stack_delete env context).1.filter Effect.isKubectl =
      [Effect.kubectl context ("delete -f " ++ delete_kubernetes_yml env context)] := by
  simp only [create_kubernetes_yml] at h
  refine ⟨?_, ?_, ?_⟩ <;>
    simp [stack_create, stack_update, stack_delete, create_kubernetes_yml,
      update_kubernetes_yml, delete_kubernetes_yml, h, Effect.isKubectl]

/-- Witness for C2 at the concrete environment `envAllFiles` and context
`"staging"`. -/
theorem stack_mutations_single_kubectl_invocation_witness :
    (stack_create envAllFiles "staging").1.filter Effect.isKubectl =
      [Effect.kubectl "staging" ("apply -f " ++ create_kubernetes_yml envAllFiles "staging")] ∧
    (stack_update envAllFiles "staging").1.filter Effect.isKubectl =
      [Effect.kubectl "staging" ("apply -f " ++ update_kubernetes_yml envAllFiles "staging")] ∧
    (stack_delete envAllFiles "staging").1.filter Effect.isKubectl =
      [Effect.kubectl "staging" ("delete -f " ++ delete_kubernetes_yml envAllFiles "staging")] :=
  stack_mutations_single_kubectl_invocation envAllFiles "staging" rfl

/-- C3: all three mutating operations derive the same manifest-file path,
namely the current working directory joined with `hokusai/`, the context
name and the extension `.yml`. -/
theorem manifest_path_uniform (env : Env) (context : String) :
    create_kubernetes_yml env context =
      osPathJoin env.cwd ("hokusai/" ++ context ++ ".yml") ∧
    update_kubernetes_yml env context = create_kubernetes_yml env context ∧
    delete_kubernetes_yml env context = create_kubernetes_yml env context :=
  ⟨rfl, rfl, rfl⟩

/-- C4: with an existing manifest, `stack_create` issues
`apply -f <manifest path>`, `stack_update` issues the identical command, and
`stack_delete` issues `delete -f <manifest path>`. -/
theorem stack_verbs (env : Env) (context : String)
    (h : env.isfile (create_kubernetes_yml env context) = true) :
    kubectlCmds (stack_create env context).1 =
      ["apply -f " ++ create_kubernetes_yml env context] ∧
    kubectlCmds (stack_update env context).1 =
      ["apply -f " ++ update_kubernetes_yml env context] ∧
    kubectlCmds (stack_create env context).1 = kubectlCmds (stack_update env context).1 ∧
    kubectlCmds (stack_delete env context).1 =
      ["delete -f " ++ delete_kubernetes_yml env context] := by
  simp only [create_kubernetes_yml] at h
  refine ⟨?_, ?_, ?_, ?_⟩ <;>
    simp [stack_create, stack_update, stack_delete, create_kubernetes_yml,
      update_kubernetes_yml, delete_kubernetes_yml, h, kubectlCmds]

/-- Witness for C4 at the concrete environment `envAllFiles` and context
`"production"`. -/
theorem stack_verbs_witness :
    kubectlCmds (stack_create envAllFiles "production").1 =
      ["apply -f " ++ create_kubernetes_yml envAllFiles "production"] ∧
    kubectlCmds (stack_update envAllFiles "production").1 =
      ["apply -f " ++ update_kubernetes_yml envAllFiles "production"] ∧
    kubectlCmds (stack_create envAllFiles "production").1 =
      kubectlCmds (stack_update envAllFiles "production").1 ∧
    kubectlCmds (stack_delete envAllFiles "production").1 =
      ["delete -f " ++ delete_kubernetes_yml envAllFiles "production"] :=
  stack_verbs envAllFiles "production" rfl

/-- C5: the status report is pure field selection: each deployment record is
built by `deploymentRecord` from `metadata.name`, `spec.replicas`, `status`
and the deployment's current tag and carries exactly the fields `name`,
`desiredReplicas`, `availableReplicas`, `unavailableReplicas`, `tag`; each
service record carries exactly `target`, `clusterIP`, `ports`, `status`; both
lists are emitted (as the YAML-dump print effects) in input order. -/
theorem stack_status_field_selection (context : String) (inp : StatusInput) :
    deployment_data inp.current_tag inp.deployments =
      inp.deployments.map (deploymentRecord inp.current_tag) ∧
    service_data inp.services = inp.services.map serviceRecord ∧
    (deployment_data inp.current_tag inp.deployments).all
      (fun r => Yaml.keys r ==
        ["name", "desiredReplicas", "availableReplicas", "unavailableReplicas", "tag"]) = true ∧
    (service_data inp.services).all
      (fun r => Yaml.keys r == ["target", "clusterIP", "ports", "status"]) = true ∧
    Effect.printDump (deployment_data inp.current_tag inp.deployments) ∈
      stack_status context inp ∧
    Effect.printDump (service_data inp.services) ∈ stack_status context inp := by
  refine ⟨rfl, rfl, ?_, ?_, ?_, ?_⟩
  · simp [deployment_data, deploymentRecord, Yaml.keys, List.all_eq_true, List.mem_map]
  · simp [service_data, serviceRecord, Yaml.keys, List.all_eq_true, List.mem_map]
  · simp [stack_status]
  · simp [stack_status]

/-- C6: for every context and file-system state, a mutating operation reports
the error result -1 exactly when the manifest file is missing, and otherwise
returns the success value; the code has no other error check. -/
theorem only_missing_manifest_is_an_error (env : Env) (context : String) :
    (stack_create env context).2 =
      (if env.isfile (create_kubernetes_yml env context) then none else some (-1)) ∧
    (stack_update env context).2 =
      (if env.isfile (update_kubernetes_yml env context) then none else some (-1)) ∧
    (stack_delete env context).2 =
      (if env.isfile (delete_kubernetes_yml env context) then none else some (-1)) := by
  unfold stack_create stack_update stack_delete create_kubernetes_yml
    update_kubernetes_yml delete_kubernetes_yml
  cases h : env.isfile (osPathJoin env.cwd ("hokusai/" ++ context ++ ".yml")) <;> simp [h]

/-- C7: `stack_status` is read-only: its trace contains no orchestration-tool
invocation and no secret creation or destruction, only resource reads and
prints. -/
theorem stack_status_read_only (context : String) (inp : StatusInput) :
    (stack_status context inp).all (fun e => !e.isMutating) = true := by
  simp [stack_status, Effect.isMutating]

/-- C8: in a deployment record, `availableReplicas` (resp.
`unavailableReplicas`) is the value copied from the item's `status` mapping
when the key is present, and 0 when the key is absent. -/
theorem replica_fields_default_to_zero (current_tag : Yaml) (item : DeploymentItem) :
    (deploymentRecord current_tag item).lookup "availableReplicas" =
      some ((assoc item.status "availableReplicas").getD (Yaml.n 0)) ∧
    (deploymentRecord current_tag item).lookup "unavailableReplicas" =
      some ((assoc item.status "unavailableReplicas").getD (Yaml.n 0)) := by
  constructor
  · cases h : assoc item.status "availableReplicas" <;>
      simp [deploymentRecord, Yaml.lookup, assoc, h]
  · cases h : assoc item.status "unavailableReplicas" <;>
      simp [deploymentRecord, Yaml.lookup, assoc, h]

/-- C9: with an existing manifest, `stack_create`'s trace creates the secret
`<project name>-secrets` before the `apply` invocation, `stack_delete`'s
trace destroys it before the `delete` invocation, and `stack_update` performs
no secret operation at all. -/
theorem secret_lifecycle (env : Env) (context : String)
    (h : env.isfile (create_kubernetes_yml env context) = true) :
    (stack_create env context).1 =
      [Effect.secretCreate (env.project_name ++ "-secrets"),
       Effect.printGreen ("Created secret " ++ env.project_name ++ "-secrets"),
       Effect.kubectl context ("apply -f " ++ create_kubernetes_yml env context),
       Effect.printGreen ("Created stack " ++ context)] ∧
    (stack_delete env context).1 =
      [Effect.secretDestroy (env.project_name ++ "-secrets"),
       Effect.printGreen ("Deleted secret " ++ env.project_name ++ "-secrets"),
       Effect.kubectl context ("delete -f " ++ delete_kubernetes_yml env context),
       Effect.printGreen ("Deleted stack " ++ context)] ∧
    (stack_update env context).1.all (fun e => !e.isSecretOp) = true := by
  simp only [create_kubernetes_yml] at h
  refine ⟨?_, ?_, ?_⟩ <;>
    simp [stack_create, stack_update, stack_delete, create_kubernetes_yml,
      update_kubernetes_yml, delete_kubernetes_yml, h, Effect.isSecretOp]

/-- Witness for C9 at the concrete environment `envAllFiles` and context
`"review"`. -/
theorem secret_lifecycle_witness :
    (stack_create envAllFiles "review").1 =
      [Effect.secretCreate (envAllFiles.project_name ++ "-secrets"),
       Effect.printGreen ("Created secret " ++ envAllFiles.project_name ++ "-secrets"),
       Effect.kubectl "review" ("apply -f " ++ create_kubernetes_yml envAllFiles "review"),
       Effect.printGreen ("Created stack " ++ "review")] ∧
    (stack_delete envAllFiles "review").1 =
      [Effect.secretDestroy (envAllFiles.project_name ++ "-secrets"),
       Effect.printGreen ("Deleted secret " ++ envAllFiles.project_name ++ "-secrets"),
       Effect.kubectl "review" ("delete -f " ++ delete_kubernetes_yml envAllFiles "review"),
       Effect.printGreen ("Deleted stack " ++ "review")] ∧
    (stack_update envAllFiles "review").1.all (fun e => !e.isSecretOp) = true :=
  secret_lifecycle envAllFiles "review" rfl

/-- C10: every deployment record in a status report carries the same `tag`
value, the deployment's single current tag, whatever the number of items. -/
theorem all_records_share_current_tag (current_tag : Yaml) (items : List DeploymentItem) :
    (deployment_data current_tag items).map (fun r => r.lookup "tag") =
      items.map (fun _ => some current_tag) := by
  induction items with
  | nil => rfl
  | cons x xs ih => simpa [deployment_data, deploymentRecord, Yaml.lookup, assoc] using ih
